import Mathlib

/-! DMA allocation policy of `arch/riscv/mm/dma.c`

A shallow embedding of `dma_riscv_alloc`, `dma_riscv_free` and
`dma_riscv_supported`, followed by the properties established about them.

Conventions of the embedding

* `struct device *dev` is an `Option device` (`none` is `NULL`).
* Every other pointer (`struct page *`, `struct cma *`, `void *`) and every
  address is a `Nat`, with `0` standing for `NULL`.
* `gfp_t` is a 32-bit unsigned word held in a `Nat`; the only operation whose
  result depends on the width, `~`, is `gfp_not`.
* The functions that `dma.c` calls but does not define (the contiguous region
  manager, the swiotlb engine, the address translations) are the fields of
  `Env`; they act on a kernel state `Kernel σ` that they may change at will.
* Every call that leaves `dma.c` is recorded, in program order, in a trace of
  `Call`s that is returned next to the result.
-/

set_option linter.unusedVariables false

namespace RiscvDma

/-! ## Configuration and constants that `dma.c` takes from headers -/

/-- Compile-time configuration and header constants used by `dma.c`: the two
`IS_ENABLED` switches, `PAGE_SHIFT` and the values of the `gfp_t` flag bits.
None of them is defined in `dma.c`, so they are parameters. -/
structure Config where
  CONFIG_ZONE_DMA32 : Bool
  CONFIG_PCI_DMA_32 : Bool
  PAGE_SHIFT : Nat
  __GFP_DMA : Nat
  __GFP_HIGHMEM : Nat
  __GFP_DMA32 : Nat
  __GFP_DIRECT_RECLAIM : Nat

/-- The part of `struct device` that `dma.c` reads. -/
structure device where
  coherent_dma_mask : Nat
  deriving DecidableEq, Repr

/-- Bitwise complement `~x` of a 32-bit unsigned word (`gfp_t`). -/
def gfp_not (x : Nat) : Nat := 2 ^ 32 - 1 - x % 2 ^ 32

/-- Modelled from the spec: the macro `DMA_BIT_MASK` of `linux/dma-mapping.h`
is not among the sources. `DMA_BIT_MASK(n)` is the largest address of an
`n`-bit range, so the "32-bit range" of the spec ends at
`DMA_BIT_MASK 32 = 2^32 - 1`. -/
def DMA_BIT_MASK (n : Nat) : Nat := if n = 64 then 2 ^ 64 - 1 else 2 ^ n - 1

/-- Modelled from the spec: the helper `gfpflags_allow_blocking` of
`linux/gfp.h` is not among the sources. The caller's "blocking is permitted"
indication travels in the flag word; it is read as the test of the
direct-reclaim bit, whose value is a parameter of `Config`. -/
def gfpflags_allow_blocking (c : Config) (gfp : Nat) : Bool :=
  gfp &&& c.__GFP_DIRECT_RECLAIM != 0

/-! ## Kernel state, collaborators and traces -/

/-- Kernel state: byte-addressed memory as seen by the CPU, and the private
state of the collaborating subsystems. -/
structure Kernel (σ : Type) where
  mem : Nat → Nat
  ext : σ

/-- The C library `memset(addr, v, n)` on the byte memory. -/
def memset (mem : Nat → Nat) (addr v n : Nat) : Nat → Nat :=
  fun a => if addr ≤ a ∧ a < addr + n then v else mem a

/-- The functions `dma.c` calls and does not define. Functions with side
effects take the kernel state and return the new one. -/
structure Env (σ : Type) where
  dev_get_cma_area : Option device → Nat
  get_order : Nat → Nat
  dma_alloc_from_contiguous :
    Kernel σ → Option device → Nat → Nat → Nat → Nat × Kernel σ
  dma_release_from_contiguous :
    Kernel σ → Option device → Nat → Nat → Bool × Kernel σ
  swiotlb_alloc_coherent :
    Kernel σ → Option device → Nat → Nat → Nat → (Nat × Nat) × Kernel σ
  swiotlb_free_coherent :
    Kernel σ → Option device → Nat → Nat → Nat → Kernel σ
  swiotlb_dma_supported : Kernel σ → Option device → Nat → Int
  phys_to_dma : Option device → Nat → Nat
  dma_to_phys : Option device → Nat → Nat
  page_to_phys : Nat → Nat
  phys_to_page : Nat → Nat
  page_address : Nat → Nat

/-- One call leaving `dma.c`, with the arguments it was given. -/
inductive Call where
  | dma_alloc_from_contiguous (dev : Option device) (count align gfp : Nat)
  | pr_err (msg : String)
  | memset (addr v n : Nat)
  | swiotlb_alloc_coherent (dev : Option device) (size gfp : Nat)
  | dma_release_from_contiguous (dev : Option device) (page count : Nat)
  | swiotlb_free_coherent (dev : Option device) (size cpu_addr dma_addr : Nat)
  deriving DecidableEq, Repr

/-- What `dma_riscv_alloc` leaves behind: the returned `void *`, the contents
of `*dma_handle`, the kernel state and the calls made. -/
structure AllocResult (σ : Type) where
  ret : Nat
  dma_handle : Nat
  k : Kernel σ
  trace : List Call

/-- What `dma_riscv_free` leaves behind: the kernel state and the calls made. -/
structure FreeResult (σ : Type) where
  k : Kernel σ
  trace : List Call

/-! ## The three functions of `dma.c` -/

/-- Lines 32-37 of `dma_riscv_alloc`: the rewriting of `gfp`. -/
def dma_riscv_alloc_gfp (c : Config) (dev : Option device) (gfp : Nat) : Nat :=
  let gfp := gfp &&& gfp_not (c.__GFP_DMA ||| c.__GFP_DMA32 ||| c.__GFP_HIGHMEM)
  if c.CONFIG_ZONE_DMA32 &&
      (match dev with
       | none => true
       | some d => decide (d.coherent_dma_mask ≤ DMA_BIT_MASK 32)) then
    gfp ||| c.__GFP_DMA32
  else
    gfp

/-- The condition of lines 33-34 under which the low zone is requested, named
for use in statements. -/
def wants_dma32 (c : Config) (dev : Option device) : Bool :=
  c.CONFIG_ZONE_DMA32 &&
    (match dev with
     | none => true
     | some d => decide (d.coherent_dma_mask ≤ DMA_BIT_MASK 32))

/-- The function `dma_riscv_alloc(dev, size, dma_handle, gfp, attrs)`; the argument
`dma_handle` is the value stored at the caller's `dma_addr_t *` on entry. -/
def dma_riscv_alloc {σ : Type} (c : Config) (E : Env σ) (k : Kernel σ)
    (dev : Option device) (size dma_handle gfp attrs : Nat) : AllocResult σ :=
  let gfp := dma_riscv_alloc_gfp c dev gfp
  if E.dev_get_cma_area dev ≠ 0 ∧ gfpflags_allow_blocking c gfp = true then
    let r := E.dma_alloc_from_contiguous k dev (size >>> c.PAGE_SHIFT)
      (E.get_order size) gfp
    let page := r.1
    let called := Call.dma_alloc_from_contiguous dev (size >>> c.PAGE_SHIFT)
      (E.get_order size) gfp
    if page = 0 then
      { ret := 0
        dma_handle := dma_handle
        k := r.2
        trace := [called,
          Call.pr_err "Unabled to allocated from contiguous memory\n"] }
    else
      let addr := E.page_address page
      { ret := addr
        dma_handle := E.phys_to_dma dev (E.page_to_phys page)
        k := { r.2 with mem := memset r.2.mem addr 0 size }
        trace := [called, Call.memset addr 0 size] }
  else
    let r := E.swiotlb_alloc_coherent k dev size dma_handle gfp
    { ret := r.1.1
      dma_handle := r.1.2
      k := r.2
      trace := [Call.swiotlb_alloc_coherent dev size gfp] }

/-- The function `dma_riscv_free(dev, size, cpu_addr, dma_addr, attrs)`. -/
def dma_riscv_free {σ : Type} (c : Config) (E : Env σ) (k : Kernel σ)
    (dev : Option device) (size cpu_addr dma_addr attrs : Nat) : FreeResult σ :=
  let paddr := E.dma_to_phys dev dma_addr
  let r := E.dma_release_from_contiguous k dev (E.phys_to_page paddr)
    (size >>> c.PAGE_SHIFT)
  let freed := r.1
  let called := Call.dma_release_from_contiguous dev (E.phys_to_page paddr)
    (size >>> c.PAGE_SHIFT)
  if !freed then
    { k := E.swiotlb_free_coherent r.2 dev size cpu_addr dma_addr
      trace := [called, Call.swiotlb_free_coherent dev size cpu_addr dma_addr] }
  else
    { k := r.2, trace := [called] }

/-- The function `dma_riscv_supported(dev, mask)`; `mask` is a `u64`. -/
def dma_riscv_supported {σ : Type} (c : Config) (E : Env σ) (k : Kernel σ)
    (dev : Option device) (mask : Nat) : Int :=
  if c.CONFIG_PCI_DMA_32 && decide (mask > DMA_BIT_MASK 32) then
    0
  else
    E.swiotlb_dma_supported k dev mask

/-! ## A concrete platform for evaluating the embedding -/

/-- The usual RV64 values: both switches on, 4 KiB pages, and the flag bits of
`linux/gfp.h`. -/
def rv64_config : Config where
  CONFIG_ZONE_DMA32 := true
  CONFIG_PCI_DMA_32 := true
  PAGE_SHIFT := 12
  __GFP_DMA := 0x01
  __GFP_HIGHMEM := 0x02
  __GFP_DMA32 := 0x04
  __GFP_DIRECT_RECLAIM := 0x400000

/-- A small platform: the region (`cma`, `0` when the device has none) owns
the single block `pool` (`0` when it has no free block); the collaborator
state is the list of region pages currently handed out. Physical memory is
mapped linearly at `0x10000000` and bus addresses equal physical addresses.
The bounce engine always answers with the buffer at `0x20000000`. -/
def toy_env (cma pool : Nat) : Env (List Nat) where
  dev_get_cma_area := fun _ => cma
  get_order := fun size => if size ≤ 4096 then 0 else if size ≤ 8192 then 1 else 2
  dma_alloc_from_contiguous := fun k _ _ _ _ =>
    if pool ≠ 0 ∧ pool ∉ k.ext then (pool, { k with ext := pool :: k.ext })
    else (0, k)
  dma_release_from_contiguous := fun k _ page _ =>
    if page ∈ k.ext then (true, { k with ext := k.ext.erase page })
    else (false, k)
  swiotlb_alloc_coherent := fun k _ size _ _ =>
    ((0x20000000, 0x10000000), { k with mem := memset k.mem 0x20000000 0 size })
  swiotlb_free_coherent := fun k _ _ _ _ => k
  swiotlb_dma_supported := fun _ _ _ => 1
  phys_to_dma := fun _ p => p
  dma_to_phys := fun _ d => d
  page_to_phys := fun pg => pg <<< 12
  phys_to_page := fun p => p >>> 12
  page_address := fun pg => pg <<< 12 + 0x10000000

/-- Initial kernel state of the small platform: memory full of stale bytes,
nothing handed out. -/
def toy_kernel : Kernel (List Nat) where
  mem := fun _ => 0xAA
  ext := []

/-- A device that can address 32 bits. -/
def dev32 : device := { coherent_dma_mask := 2 ^ 32 - 1 }

/-- A device that can address 64 bits. -/
def dev64 : device := { coherent_dma_mask := 2 ^ 64 - 1 }

/-- The flag word `GFP_KERNEL` for `rv64_config`: direct reclaim, kswapd
reclaim, IO and FS. -/
def GFP_KERNEL : Nat := 0x400000 ||| 0x1000000 ||| 0x40 ||| 0x80

/-- The flag word `GFP_ATOMIC` for `rv64_config`: high priority, atomic and
kswapd reclaim; it does not allow blocking. -/
def GFP_ATOMIC : Nat := 0x20 ||| 0x80000 ||| 0x1000000

/-! ## Bit-level facts about the flag rewriting -/

theorem DMA_BIT_MASK_32 : DMA_BIT_MASK 32 = 2 ^ 32 - 1 := by
  decide

theorem testBit_gfp_not (x i : Nat) :
    (gfp_not x).testBit i = (decide (i < 32) && !x.testBit i) := by
  have hlt : x % 2 ^ 32 < 2 ^ 32 := Nat.mod_lt _ (by norm_num)
  have hrw : gfp_not x = 2 ^ 32 - (x % 2 ^ 32 + 1) := by
    unfold gfp_not
    omega
  rw [hrw, Nat.testBit_two_pow_sub_succ hlt, Nat.testBit_mod_two_pow]
  cases decide (i < 32) <;> simp

theorem dma_riscv_alloc_gfp_eq (c : Config) (dev : Option device) (gfp : Nat) :
    dma_riscv_alloc_gfp c dev gfp =
      if wants_dma32 c dev = true then
        (gfp &&& gfp_not (c.__GFP_DMA ||| c.__GFP_DMA32 ||| c.__GFP_HIGHMEM))
          ||| c.__GFP_DMA32
      else
        gfp &&& gfp_not (c.__GFP_DMA ||| c.__GFP_DMA32 ||| c.__GFP_HIGHMEM) := by
  rfl

theorem testBit_dma_riscv_alloc_gfp (c : Config) (dev : Option device)
    (gfp i : Nat) :
    (dma_riscv_alloc_gfp c dev gfp).testBit i =
      ((gfp.testBit i && (decide (i < 32) &&
          !(c.__GFP_DMA.testBit i || c.__GFP_DMA32.testBit i ||
            c.__GFP_HIGHMEM.testBit i))) ||
        (wants_dma32 c dev && c.__GFP_DMA32.testBit i)) := by
  rw [dma_riscv_alloc_gfp_eq]
  split
  · next h => simp [h, Nat.testBit_or, Nat.testBit_and, testBit_gfp_not]
  · next h => simp [h, Nat.testBit_or, Nat.testBit_and, testBit_gfp_not]

/-! ## Flag policy -/

/-- C6: with `CONFIG_ZONE_DMA32` enabled, for every requested flag word, the
effective flags of `dma_riscv_alloc` contain `__GFP_DMA32` when no device is
given or when the device's coherent mask is at most `DMA_BIT_MASK(32)`
(which is `2^32 - 1`, the boundary included), whatever zone bits the caller
supplied. -/
theorem C6_low_zone_flag_present (c : Config) (dev : Option device) (gfp : Nat)
    (hz : c.CONFIG_ZONE_DMA32 = true)
    (hm : ∀ d, dev = some d → d.coherent_dma_mask ≤ 2 ^ 32 - 1) :
    dma_riscv_alloc_gfp c dev gfp &&& c.__GFP_DMA32 = c.__GFP_DMA32 := by
  have hw : wants_dma32 c dev = true := by
    unfold wants_dma32
    cases dev with
    | none => simp [hz]
    | some d => simpa [hz, DMA_BIT_MASK_32] using hm d rfl
  apply Nat.eq_of_testBit_eq
  intro i
  rw [Nat.testBit_and, testBit_dma_riscv_alloc_gfp, hw]
  cases c.__GFP_DMA32.testBit i <;> simp

/-- C7: for every device whose coherent mask exceeds `DMA_BIT_MASK(32)` and
every requested flag word, under either setting of `CONFIG_ZONE_DMA32`, the
effective flags of `dma_riscv_alloc` have no bit of `__GFP_DMA32`. -/
theorem C7_low_zone_flag_absent (c : Config) (d : device) (gfp : Nat)
    (hm : d.coherent_dma_mask > DMA_BIT_MASK 32) :
    dma_riscv_alloc_gfp c (some d) gfp &&& c.__GFP_DMA32 = 0 := by
  have hw : wants_dma32 c (some d) = false := by
    unfold wants_dma32
    simp [Nat.not_le.mpr hm]
  apply Nat.eq_of_testBit_eq
  intro i
  rw [Nat.testBit_and, testBit_dma_riscv_alloc_gfp, hw]
  cases c.__GFP_DMA32.testBit i <;> simp

/-- C9: for a 32-bit flag word and zone bits that do not overlap, the
effective flags of `dma_riscv_alloc` contain neither `__GFP_DMA` nor
`__GFP_HIGHMEM`, agree with the caller's word on every bit outside
`__GFP_DMA | __GFP_DMA32 | __GFP_HIGHMEM`, and the rewriting is idempotent;
being a total function it always returns a value. -/
theorem C9_zone_bits_stripped (c : Config) (dev : Option device) (gfp : Nat)
    (hg : gfp < 2 ^ 32)
    (hA : c.__GFP_DMA &&& c.__GFP_DMA32 = 0)
    (hH : c.__GFP_HIGHMEM &&& c.__GFP_DMA32 = 0) :
    dma_riscv_alloc_gfp c dev gfp &&& c.__GFP_DMA = 0 ∧
    dma_riscv_alloc_gfp c dev gfp &&& c.__GFP_HIGHMEM = 0 ∧
    (∀ i, (c.__GFP_DMA ||| c.__GFP_DMA32 ||| c.__GFP_HIGHMEM).testBit i = false →
      (dma_riscv_alloc_gfp c dev gfp).testBit i = gfp.testBit i) ∧
    dma_riscv_alloc_gfp c dev (dma_riscv_alloc_gfp c dev gfp) =
      dma_riscv_alloc_gfp c dev gfp ∧
    ∃ v, dma_riscv_alloc_gfp c dev gfp = v := by
  have hAi : ∀ i, (c.__GFP_DMA.testBit i && c.__GFP_DMA32.testBit i) = false := by
    intro i
    rw [← Nat.testBit_and, hA, Nat.zero_testBit]
  have hHi : ∀ i, (c.__GFP_HIGHMEM.testBit i && c.__GFP_DMA32.testBit i) = false := by
    intro i
    rw [← Nat.testBit_and, hH, Nat.zero_testBit]
  refine ⟨?_, ?_, ?_, ?_, ⟨_, rfl⟩⟩
  · apply Nat.eq_of_testBit_eq
    intro i
    have := hAi i
    rw [Nat.testBit_and, testBit_dma_riscv_alloc_gfp, Nat.zero_testBit]
    revert this
    cases c.__GFP_DMA.testBit i <;> cases c.__GFP_DMA32.testBit i <;> simp
  · apply Nat.eq_of_testBit_eq
    intro i
    have := hHi i
    rw [Nat.testBit_and, testBit_dma_riscv_alloc_gfp, Nat.zero_testBit]
    revert this
    cases c.__GFP_HIGHMEM.testBit i <;> cases c.__GFP_DMA32.testBit i <;> simp
  · intro i hi
    rw [Nat.testBit_or, Nat.testBit_or] at hi
    rw [testBit_dma_riscv_alloc_gfp, hi]
    have h32 : c.__GFP_DMA32.testBit i = false := by
      revert hi
      cases c.__GFP_DMA32.testBit i <;> simp
    rw [h32]
    by_cases hlt : i < 32
    · simp [hlt]
    · have : gfp.testBit i = false :=
        Nat.testBit_lt_two_pow (lt_of_lt_of_le hg
          (Nat.pow_le_pow_right (by norm_num) (Nat.not_lt.mp hlt)))
      simp [this]
  · apply Nat.eq_of_testBit_eq
    intro i
    rw [testBit_dma_riscv_alloc_gfp, testBit_dma_riscv_alloc_gfp]
    cases gfp.testBit i <;> cases c.__GFP_DMA.testBit i <;>
      cases c.__GFP_DMA32.testBit i <;> cases c.__GFP_HIGHMEM.testBit i <;>
      cases wants_dma32 c dev <;> simp

/-! ## Allocation -/

/-- The flag word handed to whichever allocator `dma_riscv_alloc` calls is
the rewritten word `dma_riscv_alloc_gfp`. -/
theorem dma_riscv_alloc_first_call {σ : Type} (c : Config) (E : Env σ)
    (k : Kernel σ) (dev : Option device) (size dma_handle gfp attrs : Nat) :
    (dma_riscv_alloc c E k dev size dma_handle gfp attrs).trace.head? =
      some (Call.dma_alloc_from_contiguous dev (size >>> c.PAGE_SHIFT)
        (E.get_order size) (dma_riscv_alloc_gfp c dev gfp)) ∨
    (dma_riscv_alloc c E k dev size dma_handle gfp attrs).trace =
      [Call.swiotlb_alloc_coherent dev size (dma_riscv_alloc_gfp c dev gfp)] := by
  unfold dma_riscv_alloc
  simp only []
  split
  · left
    split <;> rfl
  · right
    rfl

/-- The direct-reclaim bit survives the rewriting of the zone bits when it is
a 32-bit flag that is none of them. -/
theorem allow_blocking_alloc_gfp (c : Config) (dev : Option device) (gfp : Nat)
    (hR : c.__GFP_DIRECT_RECLAIM < 2 ^ 32)
    (hdisj : c.__GFP_DIRECT_RECLAIM &&&
      (c.__GFP_DMA ||| c.__GFP_DMA32 ||| c.__GFP_HIGHMEM) = 0) :
    gfpflags_allow_blocking c (dma_riscv_alloc_gfp c dev gfp) =
      gfpflags_allow_blocking c gfp := by
  have key : dma_riscv_alloc_gfp c dev gfp &&& c.__GFP_DIRECT_RECLAIM =
      gfp &&& c.__GFP_DIRECT_RECLAIM := by
    apply Nat.eq_of_testBit_eq
    intro i
    have hi : (c.__GFP_DIRECT_RECLAIM.testBit i &&
        (c.__GFP_DMA.testBit i || c.__GFP_DMA32.testBit i ||
          c.__GFP_HIGHMEM.testBit i)) = false := by
      rw [← Nat.testBit_or, ← Nat.testBit_or, ← Nat.testBit_and, hdisj,
        Nat.zero_testBit]
    rw [Nat.testBit_and, Nat.testBit_and, testBit_dma_riscv_alloc_gfp]
    by_cases hlt : i < 32
    · revert hi
      cases gfp.testBit i <;> cases c.__GFP_DIRECT_RECLAIM.testBit i <;>
        cases c.__GFP_DMA.testBit i <;> cases c.__GFP_DMA32.testBit i <;>
        cases c.__GFP_HIGHMEM.testBit i <;> cases wants_dma32 c dev <;>
        simp [hlt]
    · have : c.__GFP_DIRECT_RECLAIM.testBit i = false :=
        Nat.testBit_lt_two_pow (lt_of_lt_of_le hR
          (Nat.pow_le_pow_right (by norm_num) (Nat.not_lt.mp hlt)))
      simp [this]
  unfold gfpflags_allow_blocking
  rw [key]

/-- C1, as amended: when the device has a contiguous region, the caller's
flags allow blocking and `dma_alloc_from_contiguous` reports failure (returns
`NULL`), `dma_riscv_alloc` does not fall back to the bounce engine: it logs
the error and returns `NULL`, the dma handle is left as it was, the kernel
state is the one the contiguous allocator left, and `swiotlb_alloc_coherent`
is not called. The direct-reclaim bit is taken to be a 32-bit flag distinct
from the zone bits. -/
theorem C1_contiguous_failure_returns_null {σ : Type} (c : Config) (E : Env σ)
    (k : Kernel σ) (dev : Option device) (size dma_handle gfp attrs : Nat)
    (hR : c.__GFP_DIRECT_RECLAIM < 2 ^ 32)
    (hdisj : c.__GFP_DIRECT_RECLAIM &&&
      (c.__GFP_DMA ||| c.__GFP_DMA32 ||| c.__GFP_HIGHMEM) = 0)
    (hcma : E.dev_get_cma_area dev ≠ 0)
    (hblk : gfpflags_allow_blocking c gfp = true)
    (hfail : (E.dma_alloc_from_contiguous k dev (size >>> c.PAGE_SHIFT)
      (E.get_order size) (dma_riscv_alloc_gfp c dev gfp)).1 = 0) :
    (dma_riscv_alloc c E k dev size dma_handle gfp attrs).ret = 0 ∧
    (dma_riscv_alloc c E k dev size dma_handle gfp attrs).dma_handle =
      dma_handle ∧
    (dma_riscv_alloc c E k dev size dma_handle gfp attrs).k =
      (E.dma_alloc_from_contiguous k dev (size >>> c.PAGE_SHIFT)
        (E.get_order size) (dma_riscv_alloc_gfp c dev gfp)).2 ∧
    (dma_riscv_alloc c E k dev size dma_handle gfp attrs).trace =
      [Call.dma_alloc_from_contiguous dev (size >>> c.PAGE_SHIFT)
          (E.get_order size) (dma_riscv_alloc_gfp c dev gfp),
        Call.pr_err "Unabled to allocated from contiguous memory\n"] ∧
    (∀ d s g, Call.swiotlb_alloc_coherent d s g ∉
      (dma_riscv_alloc c E k dev size dma_handle gfp attrs).trace) := by
  have hblk2 : gfpflags_allow_blocking c (dma_riscv_alloc_gfp c dev gfp) =
      true := by
    rw [allow_blocking_alloc_gfp c dev gfp hR hdisj]
    exact hblk
  unfold dma_riscv_alloc
  simp only [hcma, hblk2, hfail, ne_eq, not_false_eq_true, and_self, if_true,
    true_and]
  intro d s g
  simp

/-- C1 fails as stated: on the small platform with a region that has no free
block, a 32-bit device and `GFP_KERNEL`, the contiguous allocation fails and
`dma_riscv_alloc` returns `NULL` with an untouched handle after a single call
to the region, while `swiotlb_alloc_coherent` for the same device, size and
effective flags would have returned the buffer `0x20000000`. -/
theorem C1_no_bounce_fallback_counterexample :
    (toy_env 1 0).dev_get_cma_area (some dev32) ≠ 0 ∧
    gfpflags_allow_blocking rv64_config GFP_KERNEL = true ∧
    ((toy_env 1 0).dma_alloc_from_contiguous toy_kernel (some dev32)
      (12288 >>> rv64_config.PAGE_SHIFT) ((toy_env 1 0).get_order 12288)
      (dma_riscv_alloc_gfp rv64_config (some dev32) GFP_KERNEL)).1 = 0 ∧
    (dma_riscv_alloc rv64_config (toy_env 1 0) toy_kernel (some dev32)
      12288 7 GFP_KERNEL 0).ret = 0 ∧
    ((toy_env 1 0).swiotlb_alloc_coherent toy_kernel (some dev32) 12288 7
      (dma_riscv_alloc_gfp rv64_config (some dev32) GFP_KERNEL)).1.1
        = 0x20000000 ∧
    (dma_riscv_alloc rv64_config (toy_env 1 0) toy_kernel (some dev32)
      12288 7 GFP_KERNEL 0).ret ≠
    ((toy_env 1 0).swiotlb_alloc_coherent toy_kernel (some dev32) 12288 7
      (dma_riscv_alloc_gfp rv64_config (some dev32) GFP_KERNEL)).1.1 ∧
    (∀ g, Call.swiotlb_alloc_coherent (some dev32) 12288 g ∉
      (dma_riscv_alloc rv64_config (toy_env 1 0) toy_kernel (some dev32)
        12288 7 GFP_KERNEL 0).trace) := by
  refine ⟨by decide, by decide, by decide, by decide, by decide, by decide, ?_⟩
  intro g
  have ht : (dma_riscv_alloc rv64_config (toy_env 1 0) toy_kernel (some dev32)
      12288 7 GFP_KERNEL 0).trace =
      [Call.dma_alloc_from_contiguous (some dev32) 3 2 20971716,
        Call.pr_err "Unabled to allocated from contiguous memory\n"] := by
    decide
  rw [ht]
  simp

/-- C1 as amended, at a concrete request: a 32-bit device whose region has
no free block, `GFP_KERNEL`, 12288 bytes. -/
theorem C1_contiguous_failure_returns_null_witness :
    (dma_riscv_alloc rv64_config (toy_env 1 0) toy_kernel (some dev32)
        12288 7 GFP_KERNEL 0).ret = 0 ∧
    (dma_riscv_alloc rv64_config (toy_env 1 0) toy_kernel (some dev32)
        12288 7 GFP_KERNEL 0).dma_handle = 7 ∧
    (dma_riscv_alloc rv64_config (toy_env 1 0) toy_kernel (some dev32)
        12288 7 GFP_KERNEL 0).k =
      ((toy_env 1 0).dma_alloc_from_contiguous toy_kernel (some dev32)
        (12288 >>> rv64_config.PAGE_SHIFT) ((toy_env 1 0).get_order 12288)
        (dma_riscv_alloc_gfp rv64_config (some dev32) GFP_KERNEL)).2 ∧
    (dma_riscv_alloc rv64_config (toy_env 1 0) toy_kernel (some dev32)
        12288 7 GFP_KERNEL 0).trace =
      [Call.dma_alloc_from_contiguous (some dev32)
          (12288 >>> rv64_config.PAGE_SHIFT) ((toy_env 1 0).get_order 12288)
          (dma_riscv_alloc_gfp rv64_config (some dev32) GFP_KERNEL),
        Call.pr_err "Unabled to allocated from contiguous memory\n"] ∧
    (∀ d s g, Call.swiotlb_alloc_coherent d s g ∉
      (dma_riscv_alloc rv64_config (toy_env 1 0) toy_kernel (some dev32)
        12288 7 GFP_KERNEL 0).trace) :=
  C1_contiguous_failure_returns_null rv64_config (toy_env 1 0) toy_kernel
    (some dev32) 12288 7 GFP_KERNEL 0 (by decide) (by decide) (by decide)
    (by decide) (by decide)

/-- C2: when the direct-reclaim bit is a 32-bit flag distinct from the zone
bits, the rewriting of the zone bits leaves the answer of
`gfpflags_allow_blocking` as it is for the caller's word; and when the
caller's flags do not allow blocking or the device has no contiguous region,
`dma_riscv_alloc` makes the single call `swiotlb_alloc_coherent(dev, size,
dma_handle, effective flags)` and returns its pointer, its handle and its
kernel state; the contiguous allocator is not called. -/
theorem C2_ineligible_goes_to_swiotlb {σ : Type} (c : Config) (E : Env σ)
    (k : Kernel σ) (dev : Option device) (size dma_handle gfp attrs : Nat)
    (hR : c.__GFP_DIRECT_RECLAIM < 2 ^ 32)
    (hdisj : c.__GFP_DIRECT_RECLAIM &&&
      (c.__GFP_DMA ||| c.__GFP_DMA32 ||| c.__GFP_HIGHMEM) = 0)
    (hinel : gfpflags_allow_blocking c gfp = false ∨
      E.dev_get_cma_area dev = 0) :
    gfpflags_allow_blocking c (dma_riscv_alloc_gfp c dev gfp) =
      gfpflags_allow_blocking c gfp ∧
    (dma_riscv_alloc c E k dev size dma_handle gfp attrs).trace =
      [Call.swiotlb_alloc_coherent dev size (dma_riscv_alloc_gfp c dev gfp)] ∧
    (dma_riscv_alloc c E k dev size dma_handle gfp attrs).ret =
      (E.swiotlb_alloc_coherent k dev size dma_handle
        (dma_riscv_alloc_gfp c dev gfp)).1.1 ∧
    (dma_riscv_alloc c E k dev size dma_handle gfp attrs).dma_handle =
      (E.swiotlb_alloc_coherent k dev size dma_handle
        (dma_riscv_alloc_gfp c dev gfp)).1.2 ∧
    (dma_riscv_alloc c E k dev size dma_handle gfp attrs).k =
      (E.swiotlb_alloc_coherent k dev size dma_handle
        (dma_riscv_alloc_gfp c dev gfp)).2 := by
  have hsame := allow_blocking_alloc_gfp c dev gfp hR hdisj
  have hcond : ¬ (E.dev_get_cma_area dev ≠ 0 ∧
      gfpflags_allow_blocking c (dma_riscv_alloc_gfp c dev gfp) = true) := by
    rw [hsame]
    rintro ⟨h1, h2⟩
    rcases hinel with h | h
    · rw [h] at h2
      exact Bool.false_ne_true h2
    · exact h1 h
  refine ⟨hsame, ?_⟩
  unfold dma_riscv_alloc
  simp only [hcond, if_false, and_self]

/-- C2 at a concrete request: `GFP_ATOMIC` on a 32-bit device that has a
region with a free block. -/
theorem C2_ineligible_goes_to_swiotlb_witness :
    gfpflags_allow_blocking rv64_config
        (dma_riscv_alloc_gfp rv64_config (some dev32) GFP_ATOMIC) =
      gfpflags_allow_blocking rv64_config GFP_ATOMIC ∧
    (dma_riscv_alloc rv64_config (toy_env 1 0x80) toy_kernel (some dev32)
        12288 7 GFP_ATOMIC 0).trace =
      [Call.swiotlb_alloc_coherent (some dev32) 12288
        (dma_riscv_alloc_gfp rv64_config (some dev32) GFP_ATOMIC)] ∧
    (dma_riscv_alloc rv64_config (toy_env 1 0x80) toy_kernel (some dev32)
        12288 7 GFP_ATOMIC 0).ret =
      ((toy_env 1 0x80).swiotlb_alloc_coherent toy_kernel (some dev32) 12288 7
        (dma_riscv_alloc_gfp rv64_config (some dev32) GFP_ATOMIC)).1.1 ∧
    (dma_riscv_alloc rv64_config (toy_env 1 0x80) toy_kernel (some dev32)
        12288 7 GFP_ATOMIC 0).dma_handle =
      ((toy_env 1 0x80).swiotlb_alloc_coherent toy_kernel (some dev32) 12288 7
        (dma_riscv_alloc_gfp rv64_config (some dev32) GFP_ATOMIC)).1.2 ∧
    (dma_riscv_alloc rv64_config (toy_env 1 0x80) toy_kernel (some dev32)
        12288 7 GFP_ATOMIC 0).k =
      ((toy_env 1 0x80).swiotlb_alloc_coherent toy_kernel (some dev32) 12288 7
        (dma_riscv_alloc_gfp rv64_config (some dev32) GFP_ATOMIC)).2 :=
  C2_ineligible_goes_to_swiotlb rv64_config (toy_env 1 0x80) toy_kernel
    (some dev32) 12288 7 GFP_ATOMIC 0 (by decide) (by decide)
    (Or.inl (by decide))

/-- C3: when the device has a contiguous region, the effective flags allow
blocking and `dma_alloc_from_contiguous` returns a page, `dma_riscv_alloc`
returns `page_address(page)`, stores `phys_to_dma(dev, page_to_phys(page))`
in the dma handle, and each of the `size` bytes from the returned address on
is zero in the kernel state it returns. -/
theorem C3_contiguous_success {σ : Type} (c : Config) (E : Env σ)
    (k : Kernel σ) (dev : Option device) (size dma_handle gfp attrs : Nat)
    (hcma : E.dev_get_cma_area dev ≠ 0)
    (hblk : gfpflags_allow_blocking c (dma_riscv_alloc_gfp c dev gfp) = true)
    (hpage : (E.dma_alloc_from_contiguous k dev (size >>> c.PAGE_SHIFT)
      (E.get_order size) (dma_riscv_alloc_gfp c dev gfp)).1 ≠ 0) :
    (dma_riscv_alloc c E k dev size dma_handle gfp attrs).ret =
      E.page_address (E.dma_alloc_from_contiguous k dev
        (size >>> c.PAGE_SHIFT) (E.get_order size)
        (dma_riscv_alloc_gfp c dev gfp)).1 ∧
    (dma_riscv_alloc c E k dev size dma_handle gfp attrs).dma_handle =
      E.phys_to_dma dev (E.page_to_phys (E.dma_alloc_from_contiguous k dev
        (size >>> c.PAGE_SHIFT) (E.get_order size)
        (dma_riscv_alloc_gfp c dev gfp)).1) ∧
    ∀ a, (dma_riscv_alloc c E k dev size dma_handle gfp attrs).ret ≤ a →
      a < (dma_riscv_alloc c E k dev size dma_handle gfp attrs).ret + size →
      (dma_riscv_alloc c E k dev size dma_handle gfp attrs).k.mem a = 0 := by
  unfold dma_riscv_alloc
  simp only [hcma, hblk, hpage, ne_eq, not_false_eq_true, and_self, if_true,
    if_false, true_and]
  intro a h1 h2
  simp [memset, h1, h2]

/-- C3 at the request of the spec's scenario: a device with a 32-bit mask,
flags that allow blocking and a size of 12288 bytes, on a region with a free
block. -/
theorem C3_contiguous_success_witness :
    (dma_riscv_alloc rv64_config (toy_env 1 0x80) toy_kernel (some dev32)
        12288 7 GFP_KERNEL 0).ret =
      (toy_env 1 0x80).page_address ((toy_env 1 0x80).dma_alloc_from_contiguous
        toy_kernel (some dev32) (12288 >>> rv64_config.PAGE_SHIFT)
        ((toy_env 1 0x80).get_order 12288)
        (dma_riscv_alloc_gfp rv64_config (some dev32) GFP_KERNEL)).1 ∧
    (dma_riscv_alloc rv64_config (toy_env 1 0x80) toy_kernel (some dev32)
        12288 7 GFP_KERNEL 0).dma_handle =
      (toy_env 1 0x80).phys_to_dma (some dev32) ((toy_env 1 0x80).page_to_phys
        ((toy_env 1 0x80).dma_alloc_from_contiguous
        toy_kernel (some dev32) (12288 >>> rv64_config.PAGE_SHIFT)
        ((toy_env 1 0x80).get_order 12288)
        (dma_riscv_alloc_gfp rv64_config (some dev32) GFP_KERNEL)).1) ∧
    ∀ a, (dma_riscv_alloc rv64_config (toy_env 1 0x80) toy_kernel (some dev32)
        12288 7 GFP_KERNEL 0).ret ≤ a →
      a < (dma_riscv_alloc rv64_config (toy_env 1 0x80) toy_kernel
        (some dev32) 12288 7 GFP_KERNEL 0).ret + 12288 →
      (dma_riscv_alloc rv64_config (toy_env 1 0x80) toy_kernel (some dev32)
        12288 7 GFP_KERNEL 0).k.mem a = 0 :=
  C3_contiguous_success rv64_config (toy_env 1 0x80) toy_kernel (some dev32)
    12288 7 GFP_KERNEL 0 (by decide) (by decide) (by decide)

/-! ## Release -/

/-- C4: `dma_riscv_free(dev, size, cpu_addr, dma_addr)` first calls
`dma_release_from_contiguous` once, on the page of `dma_to_phys(dev,
dma_addr)` with `size >> PAGE_SHIFT` pages. If that call reports false, the
only other call is `swiotlb_free_coherent(dev, size, cpu_addr, dma_addr)`,
made once on the state the release left; if it reports true, there is no
other call. So `swiotlb_free_coherent` is called exactly when the release
reports false. -/
theorem C4_release_contiguous_first {σ : Type} (c : Config) (E : Env σ)
    (k : Kernel σ) (dev : Option device) (size cpu_addr dma_addr attrs : Nat) :
    (dma_riscv_free c E k dev size cpu_addr dma_addr attrs).trace.head? =
      some (Call.dma_release_from_contiguous dev
        (E.phys_to_page (E.dma_to_phys dev dma_addr))
        (size >>> c.PAGE_SHIFT)) ∧
    ((E.dma_release_from_contiguous k dev
        (E.phys_to_page (E.dma_to_phys dev dma_addr))
        (size >>> c.PAGE_SHIFT)).1 = false →
      (dma_riscv_free c E k dev size cpu_addr dma_addr attrs).trace =
        [Call.dma_release_from_contiguous dev
            (E.phys_to_page (E.dma_to_phys dev dma_addr))
            (size >>> c.PAGE_SHIFT),
          Call.swiotlb_free_coherent dev size cpu_addr dma_addr] ∧
      (dma_riscv_free c E k dev size cpu_addr dma_addr attrs).k =
        E.swiotlb_free_coherent
          (E.dma_release_from_contiguous k dev
            (E.phys_to_page (E.dma_to_phys dev dma_addr))
            (size >>> c.PAGE_SHIFT)).2
          dev size cpu_addr dma_addr) ∧
    ((E.dma_release_from_contiguous k dev
        (E.phys_to_page (E.dma_to_phys dev dma_addr))
        (size >>> c.PAGE_SHIFT)).1 = true →
      (dma_riscv_free c E k dev size cpu_addr dma_addr attrs).trace =
        [Call.dma_release_from_contiguous dev
            (E.phys_to_page (E.dma_to_phys dev dma_addr))
            (size >>> c.PAGE_SHIFT)] ∧
      (dma_riscv_free c E k dev size cpu_addr dma_addr attrs).k =
        (E.dma_release_from_contiguous k dev
          (E.phys_to_page (E.dma_to_phys dev dma_addr))
          (size >>> c.PAGE_SHIFT)).2) ∧
    ((∃ s a b, Call.swiotlb_free_coherent dev s a b ∈
        (dma_riscv_free c E k dev size cpu_addr dma_addr attrs).trace) ↔
      (E.dma_release_from_contiguous k dev
        (E.phys_to_page (E.dma_to_phys dev dma_addr))
        (size >>> c.PAGE_SHIFT)).1 = false) := by
  unfold dma_riscv_free
  cases h : (E.dma_release_from_contiguous k dev
      (E.phys_to_page (E.dma_to_phys dev dma_addr))
      (size >>> c.PAGE_SHIFT)).1 <;> simp [h]

/-- C5: let a contiguous-origin allocation of `size` bytes succeed (region
present, blocking allowed, a page returned) and let `dma_to_phys` invert
`phys_to_dma` for the device and `phys_to_page` invert `page_to_phys`. Then
the allocation applied `dma_alloc_from_contiguous` to the state it was given,
asking for `size >> PAGE_SHIFT` pages, and `dma_riscv_free` with the same
size and the returned addresses, from any later kernel state, applies
`dma_release_from_contiguous` to that state for that very page with that
very page count. When the region reports true, the release is the only call
and the state returned is the one the region left, so
`swiotlb_free_coherent` is not entered; when it reports false, the state the
region left goes on to `swiotlb_free_coherent` with the caller's arguments. -/
theorem C5_contiguous_round_trip {σ : Type} (c : Config) (E : Env σ)
    (k k2 : Kernel σ) (dev : Option device)
    (size dma_handle gfp attrs attrs2 : Nat)
    (hcma : E.dev_get_cma_area dev ≠ 0)
    (hblk : gfpflags_allow_blocking c (dma_riscv_alloc_gfp c dev gfp) = true)
    (hpage : (E.dma_alloc_from_contiguous k dev (size >>> c.PAGE_SHIFT)
      (E.get_order size) (dma_riscv_alloc_gfp c dev gfp)).1 ≠ 0)
    (hdma : ∀ p, E.dma_to_phys dev (E.phys_to_dma dev p) = p)
    (hpg : ∀ pg, E.phys_to_page (E.page_to_phys pg) = pg) :
    (dma_riscv_alloc c E k dev size dma_handle gfp attrs).trace.head? =
      some (Call.dma_alloc_from_contiguous dev (size >>> c.PAGE_SHIFT)
        (E.get_order size) (dma_riscv_alloc_gfp c dev gfp)) ∧
    (dma_riscv_free c E k2 dev size
        (dma_riscv_alloc c E k dev size dma_handle gfp attrs).ret
        (dma_riscv_alloc c E k dev size dma_handle gfp attrs).dma_handle
        attrs2).trace.head? =
      some (Call.dma_release_from_contiguous dev
        (E.dma_alloc_from_contiguous k dev (size >>> c.PAGE_SHIFT)
          (E.get_order size) (dma_riscv_alloc_gfp c dev gfp)).1
        (size >>> c.PAGE_SHIFT)) ∧
    ((E.dma_release_from_contiguous k2 dev
        (E.dma_alloc_from_contiguous k dev (size >>> c.PAGE_SHIFT)
          (E.get_order size) (dma_riscv_alloc_gfp c dev gfp)).1
        (size >>> c.PAGE_SHIFT)).1 = true →
      (dma_riscv_free c E k2 dev size
        (dma_riscv_alloc c E k dev size dma_handle gfp attrs).ret
        (dma_riscv_alloc c E k dev size dma_handle gfp attrs).dma_handle
        attrs2).trace =
      [Call.dma_release_from_contiguous dev
        (E.dma_alloc_from_contiguous k dev (size >>> c.PAGE_SHIFT)
          (E.get_order size) (dma_riscv_alloc_gfp c dev gfp)).1
        (size >>> c.PAGE_SHIFT)]) ∧
    (dma_riscv_alloc c E k dev size dma_handle gfp attrs).k.ext =
      (E.dma_alloc_from_contiguous k dev (size >>> c.PAGE_SHIFT)
          (E.get_order size) (dma_riscv_alloc_gfp c dev gfp)).2.ext ∧
    (dma_riscv_alloc c E k dev size dma_handle gfp attrs).k.mem =
      memset (E.dma_alloc_from_contiguous k dev (size >>> c.PAGE_SHIFT)
          (E.get_order size) (dma_riscv_alloc_gfp c dev gfp)).2.mem
        (E.page_address (E.dma_alloc_from_contiguous k dev (size >>> c.PAGE_SHIFT)
          (E.get_order size) (dma_riscv_alloc_gfp c dev gfp)).1) 0 size ∧
    ((E.dma_release_from_contiguous k2 dev
        (E.dma_alloc_from_contiguous k dev (size >>> c.PAGE_SHIFT)
          (E.get_order size) (dma_riscv_alloc_gfp c dev gfp)).1
        (size >>> c.PAGE_SHIFT)).1 = true →
      (dma_riscv_free c E k2 dev size
        (dma_riscv_alloc c E k dev size dma_handle gfp attrs).ret
        (dma_riscv_alloc c E k dev size dma_handle gfp attrs).dma_handle
        attrs2).k =
      (E.dma_release_from_contiguous k2 dev
        (E.dma_alloc_from_contiguous k dev (size >>> c.PAGE_SHIFT)
          (E.get_order size) (dma_riscv_alloc_gfp c dev gfp)).1
        (size >>> c.PAGE_SHIFT)).2 ∧
      ∀ d s a b, Call.swiotlb_free_coherent d s a b ∉
        (dma_riscv_free c E k2 dev size
        (dma_riscv_alloc c E k dev size dma_handle gfp attrs).ret
        (dma_riscv_alloc c E k dev size dma_handle gfp attrs).dma_handle
        attrs2).trace) ∧
    ((E.dma_release_from_contiguous k2 dev
        (E.dma_alloc_from_contiguous k dev (size >>> c.PAGE_SHIFT)
          (E.get_order size) (dma_riscv_alloc_gfp c dev gfp)).1
        (size >>> c.PAGE_SHIFT)).1 = false →
      (dma_riscv_free c E k2 dev size
        (dma_riscv_alloc c E k dev size dma_handle gfp attrs).ret
        (dma_riscv_alloc c E k dev size dma_handle gfp attrs).dma_handle
        attrs2).trace =
      [Call.dma_release_from_contiguous dev
        (E.dma_alloc_from_contiguous k dev (size >>> c.PAGE_SHIFT)
          (E.get_order size) (dma_riscv_alloc_gfp c dev gfp)).1
        (size >>> c.PAGE_SHIFT),
        Call.swiotlb_free_coherent dev size
          (dma_riscv_alloc c E k dev size dma_handle gfp attrs).ret
          (dma_riscv_alloc c E k dev size dma_handle gfp attrs).dma_handle] ∧
      (dma_riscv_free c E k2 dev size
        (dma_riscv_alloc c E k dev size dma_handle gfp attrs).ret
        (dma_riscv_alloc c E k dev size dma_handle gfp attrs).dma_handle
        attrs2).k =
      E.swiotlb_free_coherent
        (E.dma_release_from_contiguous k2 dev
        (E.dma_alloc_from_contiguous k dev (size >>> c.PAGE_SHIFT)
          (E.get_order size) (dma_riscv_alloc_gfp c dev gfp)).1
        (size >>> c.PAGE_SHIFT)).2
        dev size
        (dma_riscv_alloc c E k dev size dma_handle gfp attrs).ret
        (dma_riscv_alloc c E k dev size dma_handle gfp attrs).dma_handle) := by
  have hh : (dma_riscv_alloc c E k dev size dma_handle gfp attrs).dma_handle =
      E.phys_to_dma dev (E.page_to_phys (E.dma_alloc_from_contiguous k dev
        (size >>> c.PAGE_SHIFT) (E.get_order size)
        (dma_riscv_alloc_gfp c dev gfp)).1) := by
    unfold dma_riscv_alloc
    simp only [hcma, hblk, hpage, ne_eq, not_false_eq_true, and_self, if_true,
      if_false]
  have ht : (dma_riscv_alloc c E k dev size dma_handle gfp attrs).trace.head? =
      some (Call.dma_alloc_from_contiguous dev (size >>> c.PAGE_SHIFT)
        (E.get_order size) (dma_riscv_alloc_gfp c dev gfp)) := by
    unfold dma_riscv_alloc
    simp only [hcma, hblk, hpage, ne_eq, not_false_eq_true, and_self, if_true,
      if_false, List.head?_cons]
  have hk : (dma_riscv_alloc c E k dev size dma_handle gfp attrs).k.ext =
      (E.dma_alloc_from_contiguous k dev (size >>> c.PAGE_SHIFT)
          (E.get_order size) (dma_riscv_alloc_gfp c dev gfp)).2.ext ∧
    (dma_riscv_alloc c E k dev size dma_handle gfp attrs).k.mem =
      memset (E.dma_alloc_from_contiguous k dev (size >>> c.PAGE_SHIFT)
          (E.get_order size) (dma_riscv_alloc_gfp c dev gfp)).2.mem
        (E.page_address (E.dma_alloc_from_contiguous k dev (size >>> c.PAGE_SHIFT)
          (E.get_order size) (dma_riscv_alloc_gfp c dev gfp)).1) 0 size := by
    unfold dma_riscv_alloc
    simp only [hcma, hblk, hpage, ne_eq, not_false_eq_true, and_self, if_true,
      if_false]
  refine ⟨ht, ?_, ?_, hk.1, hk.2, ?_, ?_⟩
  · rw [hh]
    unfold dma_riscv_free
    simp only [hdma, hpg]
    split <;> rfl
  · intro hrel
    rw [hh]
    unfold dma_riscv_free
    simp only [hdma, hpg, hrel, Bool.not_true, Bool.false_eq_true, if_false]
  · intro hrel
    rw [hh]
    unfold dma_riscv_free
    simp only [hdma, hpg, hrel, Bool.not_true, Bool.false_eq_true, if_false,
      true_and]
    intro d s a b
    simp
  · intro hrel
    rw [hh]
    unfold dma_riscv_free
    simp only [hdma, hpg, hrel, Bool.not_false, if_true, and_self]

/-! ## Capability query -/

/-- C8: `dma_riscv_supported` returns 0 when `CONFIG_PCI_DMA_32` is enabled
and the mask exceeds `2^32 - 1`, whatever `swiotlb_dma_supported` answers;
in every other case, the mask `2^32 - 1` among them, it returns what
`swiotlb_dma_supported(dev, mask)` returns. -/
theorem C8_supported_erratum_cap {σ : Type} (c : Config) (E : Env σ)
    (k : Kernel σ) (dev : Option device) (mask : Nat) :
    DMA_BIT_MASK 32 = 2 ^ 32 - 1 ∧
    (c.CONFIG_PCI_DMA_32 = true ∧ mask > 2 ^ 32 - 1 →
      dma_riscv_supported c E k dev mask = 0) ∧
    (¬ (c.CONFIG_PCI_DMA_32 = true ∧ mask > 2 ^ 32 - 1) →
      dma_riscv_supported c E k dev mask =
        E.swiotlb_dma_supported k dev mask) ∧
    dma_riscv_supported c E k dev (2 ^ 32 - 1) =
      E.swiotlb_dma_supported k dev (2 ^ 32 - 1) := by
  refine ⟨DMA_BIT_MASK_32, ?_, ?_, ?_⟩
  · rintro ⟨h1, h2⟩
    unfold dma_riscv_supported
    rw [DMA_BIT_MASK_32, if_pos]
    simp only [h1, Bool.true_and, decide_eq_true_eq]
    exact h2
  · intro h
    unfold dma_riscv_supported
    rw [DMA_BIT_MASK_32, if_neg]
    simpa only [Bool.and_eq_true, decide_eq_true_eq] using h
  · unfold dma_riscv_supported
    rw [DMA_BIT_MASK_32]
    simp

/-! ## The statements above at concrete requests -/

/-- C5 at a concrete request: 12288 bytes for a 32-bit device with
`GFP_KERNEL` on a region with a free block, released from the state the
allocation left. The allocation leaves page `0x80` handed out; the release
is the only call, the state returned is the one the region left, and in it
nothing is handed out any more. -/
theorem C5_contiguous_round_trip_witness :
    (dma_riscv_free rv64_config (toy_env 1 0x80)
        (dma_riscv_alloc rv64_config (toy_env 1 0x80) toy_kernel (some dev32)
          12288 7 GFP_KERNEL 0).k
        (some dev32) 12288
        (dma_riscv_alloc rv64_config (toy_env 1 0x80) toy_kernel (some dev32)
          12288 7 GFP_KERNEL 0).ret
        (dma_riscv_alloc rv64_config (toy_env 1 0x80) toy_kernel (some dev32)
          12288 7 GFP_KERNEL 0).dma_handle
        0).trace =
      [Call.dma_release_from_contiguous (some dev32)
        ((toy_env 1 0x80).dma_alloc_from_contiguous toy_kernel (some dev32)
          (12288 >>> rv64_config.PAGE_SHIFT) ((toy_env 1 0x80).get_order 12288)
          (dma_riscv_alloc_gfp rv64_config (some dev32) GFP_KERNEL)).1
        (12288 >>> rv64_config.PAGE_SHIFT)] ∧
    (dma_riscv_free rv64_config (toy_env 1 0x80)
        (dma_riscv_alloc rv64_config (toy_env 1 0x80) toy_kernel (some dev32)
          12288 7 GFP_KERNEL 0).k
        (some dev32) 12288
        (dma_riscv_alloc rv64_config (toy_env 1 0x80) toy_kernel (some dev32)
          12288 7 GFP_KERNEL 0).ret
        (dma_riscv_alloc rv64_config (toy_env 1 0x80) toy_kernel (some dev32)
          12288 7 GFP_KERNEL 0).dma_handle
        0).k =
      ((toy_env 1 0x80).dma_release_from_contiguous
        (dma_riscv_alloc rv64_config (toy_env 1 0x80) toy_kernel (some dev32)
          12288 7 GFP_KERNEL 0).k
        (some dev32)
        ((toy_env 1 0x80).dma_alloc_from_contiguous toy_kernel (some dev32)
          (12288 >>> rv64_config.PAGE_SHIFT) ((toy_env 1 0x80).get_order 12288)
          (dma_riscv_alloc_gfp rv64_config (some dev32) GFP_KERNEL)).1
        (12288 >>> rv64_config.PAGE_SHIFT)).2 ∧
    (dma_riscv_alloc rv64_config (toy_env 1 0x80) toy_kernel (some dev32)
          12288 7 GFP_KERNEL 0).k.ext = [0x80] ∧
    (dma_riscv_free rv64_config (toy_env 1 0x80)
        (dma_riscv_alloc rv64_config (toy_env 1 0x80) toy_kernel (some dev32)
          12288 7 GFP_KERNEL 0).k
        (some dev32) 12288
        (dma_riscv_alloc rv64_config (toy_env 1 0x80) toy_kernel (some dev32)
          12288 7 GFP_KERNEL 0).ret
        (dma_riscv_alloc rv64_config (toy_env 1 0x80) toy_kernel (some dev32)
          12288 7 GFP_KERNEL 0).dma_handle
        0).k.ext = [] :=
  have h := C5_contiguous_round_trip rv64_config (toy_env 1 0x80) toy_kernel
    (dma_riscv_alloc rv64_config (toy_env 1 0x80) toy_kernel (some dev32)
      12288 7 GFP_KERNEL 0).k
    (some dev32) 12288 7 GFP_KERNEL 0 0 (by decide) (by decide) (by decide)
    (fun _ => rfl) (fun pg => Nat.shiftLeft_shiftRight pg 12)
  ⟨h.2.2.1 (by decide), (h.2.2.2.2.2.1 (by decide)).1, by decide, by decide⟩

/-- C6 at a concrete request: a device whose mask is exactly `2^32 - 1` and a
caller that asks for `__GFP_DMA | __GFP_HIGHMEM`. -/
theorem C6_low_zone_flag_present_witness :
    dma_riscv_alloc_gfp rv64_config (some dev32) (0x01 ||| 0x02 ||| GFP_KERNEL)
      &&& rv64_config.__GFP_DMA32 = rv64_config.__GFP_DMA32 :=
  C6_low_zone_flag_present rv64_config (some dev32)
    (0x01 ||| 0x02 ||| GFP_KERNEL) rfl
    (fun d h => by cases h; decide)

/-- C7 at a concrete request: a 64-bit device and a caller that already set
`__GFP_DMA32`. -/
theorem C7_low_zone_flag_absent_witness :
    dma_riscv_alloc_gfp rv64_config (some dev64) (0x04 ||| GFP_KERNEL)
      &&& rv64_config.__GFP_DMA32 = 0 :=
  C7_low_zone_flag_absent rv64_config dev64 (0x04 ||| GFP_KERNEL) (by decide)

/-- C9 at a concrete request: a 32-bit device and a caller that set all three
zone bits. -/
theorem C9_zone_bits_stripped_witness :
    dma_riscv_alloc_gfp rv64_config (some dev32) (0x07 ||| GFP_KERNEL)
      &&& rv64_config.__GFP_DMA = 0 ∧
    dma_riscv_alloc_gfp rv64_config (some dev32) (0x07 ||| GFP_KERNEL)
      &&& rv64_config.__GFP_HIGHMEM = 0 ∧
    dma_riscv_alloc_gfp rv64_config (some dev32)
        (dma_riscv_alloc_gfp rv64_config (some dev32) (0x07 ||| GFP_KERNEL)) =
      dma_riscv_alloc_gfp rv64_config (some dev32) (0x07 ||| GFP_KERNEL) :=
  have h := C9_zone_bits_stripped rv64_config (some dev32)
    (0x07 ||| GFP_KERNEL) (by decide) (by decide) (by decide)
  ⟨h.1, h.2.1, h.2.2.2.1⟩

/-! ## Page count of the contiguous request -/

/-- C10 does not hold of the code: for 5000 bytes and 4 KiB pages
`dma_riscv_alloc` asks the region for `5000 >> 12 = 1` page, which spans 4096
bytes, and then zero-fills 5000 bytes from the page's address; the byte at
offset 4096, outside the page that was requested, is overwritten. -/
theorem C10_zero_fill_exceeds_requested_pages :
    (5000 >>> rv64_config.PAGE_SHIFT) * 2 ^ rv64_config.PAGE_SHIFT < 5000 ∧
    (dma_riscv_alloc rv64_config (toy_env 1 0x80) toy_kernel (some dev32)
        5000 7 GFP_KERNEL 0).trace =
      [Call.dma_alloc_from_contiguous (some dev32) 1 1
          (dma_riscv_alloc_gfp rv64_config (some dev32) GFP_KERNEL),
        Call.memset ((toy_env 1 0x80).page_address 0x80) 0 5000] ∧
    toy_kernel.mem ((toy_env 1 0x80).page_address 0x80 + 4096) = 0xAA ∧
    (dma_riscv_alloc rv64_config (toy_env 1 0x80) toy_kernel (some dev32)
        5000 7 GFP_KERNEL 0).k.mem
      ((toy_env 1 0x80).page_address 0x80 + 4096) = 0 := by
  refine ⟨by decide, by decide, by decide, by decide⟩

end RiscvDma
